import Mathlib

/-!
Shallow embedding of the carbon-to-credit-to-cashflow pipeline of the
af-carbon-dash repository (model_service/model.py, utils/functions/models.py,
utils/functions/plant_design.py), with theorems settling the frozen claims.

Machine floats of the source are modelled as exact rationals; pandas/NumPy
NaN propagation is modelled with `Option ℚ` (`none` = NaN).
-/

/-- Round-half-to-even on rationals, the tie rule used by Python's `round`
and by pandas/NumPy `.round`; `f % 2 = 0` tests evenness of the floor. -/
def roundHalfEven (x : ℚ) : ℤ :=
  let f : ℤ := ⌊x⌋
  let r : ℚ := x - f
  if r < 1/2 then f
  else if r > 1/2 then f + 1
  else if f % 2 = 0 then f else f + 1

/-- `round(x, 2)` of Python/pandas: round to 2 decimal places, ties to even. -/
def round2 (x : ℚ) : ℚ := (roundHalfEven (x * 100) : ℚ) / 100

/-- `round(x, 4)` of Python: round to 4 decimal places, ties to even. -/
def round4 (x : ℚ) : ℚ := (roundHalfEven (x * 10000) : ℚ) / 10000

/-- Stable insertion by an integer key, ascending: embeds sorting a table by
year (`sorted(keys, key=int)`, `sort_values("Year")`). -/
def insertByKey {α : Type} (key : α → ℤ) (r : α) : List α → List α
  | [] => [r]
  | s :: rest => if key r < key s then r :: s :: rest else s :: insertByKey key r rest

/-- Sort a list ascending by an integer key (insertion sort). -/
def sortByKey {α : Type} (key : α → ℤ) : List α → List α
  | [] => []
  | r :: rest => insertByKey key r (sortByKey key rest)

/-! ## Carbon Accumulation Estimator (model_service/model.py, compute_carbon_scores) -/

/-- One row of the per-year coefficients table
(`conf/base/carbon_model_coefficients.json` entries). -/
structure CoeffRow where
  TPA_DF : ℚ
  TPA_RC : ℚ
  TPA_WH : ℚ
  TPA_total : ℚ
  Survival : ℚ
  SI : ℚ
  Intercept : ℚ
deriving DecidableEq, Repr

/-- One output row of `compute_carbon_scores`. -/
structure ScoreRow where
  Year : ℤ
  C_Score : ℚ
  Annual_C_Score : ℚ
deriving DecidableEq, Repr

/-- The linear per-year score of `compute_carbon_scores` (model.py lines
119-127): `Σ coefficient[year][feature] * feature + intercept`. -/
def scoreAt (c : CoeffRow) (tpa_df tpa_rc tpa_wh survival si : ℚ) : ℚ :=
  c.TPA_DF * tpa_df
    + c.TPA_RC * tpa_rc
    + c.TPA_WH * tpa_wh
    + c.TPA_total * (tpa_df + tpa_rc + tpa_wh)
    + c.Survival * survival
    + c.SI * si
    + c.Intercept

/-- Loop body of `compute_carbon_scores`: walks the year-sorted coefficient
table carrying the previous raw cumulative score (the code's `c_scores[-1]`);
the annual score of the first year equals its cumulative score. Rounding to
4 decimals is applied to the emitted rows only (model.py lines 135-142). -/
def scoresAux (tpa_df tpa_rc tpa_wh survival si : ℚ) :
    Option ℚ → List (ℤ × CoeffRow) → List ScoreRow
  | _, [] => []
  | prev, (y, c) :: rest =>
      let s := scoreAt c tpa_df tpa_rc tpa_wh survival si
      let ann := match prev with
        | none => s
        | some p => s - p
      ⟨y, round4 s, round4 ann⟩ ::
        scoresAux tpa_df tpa_rc tpa_wh survival si (some s) rest

/-- Embedding of `compute_carbon_scores` (model.py lines 104-142). The
coefficients dict is a finite list of (year, row) pairs, iterated in
ascending year order. -/
def compute_carbon_scores (coefficients : List (ℤ × CoeffRow))
    (tpa_df tpa_rc tpa_wh survival si : ℚ) : List ScoreRow :=
  scoresAux tpa_df tpa_rc tpa_wh survival si none
    (sortByKey (fun c => c.1) coefficients)

/-- The single-year example coefficients table of the specification. -/
def exampleCoeffs : List (ℤ × CoeffRow) :=
  [(2025, ⟨1/10, 1/20, 1/20, 1/50, 1/100, 1/100, 1⟩)]

/-- A coefficients table whose intercept is below the 4-decimal rounding
grain, separating the returned `C_Score` from the raw linear combination. -/
def tinyInterceptCoeffs : List (ℤ × CoeffRow) :=
  [(2025, ⟨0, 0, 0, 0, 0, 0, 1/100000⟩)]

/-! ## Carbon Unit Converter (model_service/model.py, compute_carbon_units)

The scipy cubic interpolating spline (`make_interp_spline(X, y, k=3)`) is an
external library function; it enters the embedding as an explicit function
parameter `spline : List (ℤ × ℚ) → ℤ → ℚ` mapping the sorted (year, value)
data and an evaluation year to the spline value there. The one property the
claims rely on is the defining property of every interpolating spline: at a
data year it returns the data value. `nodeInterp` below realises exactly
that and is used to instantiate the parameter on inputs whose years are
consecutive integers, where every point of the evaluation grid
`np.arange(X.min(), X.max() + 1)` is a data node, so the scipy spline and
`nodeInterp` agree at every evaluated point. -/

/-- One protocol's conversion rule (`protocol_rules.json` entry /
`ProtocolRule` schema): CO2 scaling coefficient, buffer fraction, and
whether the buffer applies. -/
structure CURule where
  coeff : ℚ
  BUF : ℚ
  apply_buf : Bool
deriving DecidableEq, Repr

/-- Spline evaluation at a node: return the data value recorded for that
year (interpolating-spline property), 0 off the nodes (never used when the
evaluation grid consists of nodes only). -/
def nodeInterp : List (ℤ × ℚ) → ℤ → ℚ
  | [], _ => 0
  | p :: rest, y => if p.1 = y then p.2 else nodeInterp rest y

/-- `np.arange(lo, hi + 1)`: the integer years from `lo` to `hi` inclusive
(empty when `hi < lo`). -/
def intRange (lo hi : ℤ) : List ℤ :=
  List.map (fun k : ℕ => lo + (k : ℤ)) (List.range (hi + 1 - lo).toNat)

/-- `X.min()` over the year column (0 on an empty frame, where NumPy would
raise; the claims only touch nonempty inputs). -/
def minYear : List (ℤ × ℚ) → ℤ
  | [] => 0
  | [r] => r.1
  | r :: rest => min r.1 (minYear rest)

/-- `X.max()` over the year column. -/
def maxYear : List (ℤ × ℚ) → ℤ
  | [] => 0
  | [r] => r.1
  | r :: rest => max r.1 (maxYear rest)

/-- Tail of `Series.diff()`: consecutive differences against the running
previous value. -/
def diffVals (prev : ℚ) : List ℚ → List ℚ
  | [] => []
  | x :: xs => (x - prev) :: diffVals x xs

/-- `Series.diff()`: NaN (`none`) at the first position, consecutive
differences afterwards. -/
def diffO : List ℚ → List (Option ℚ)
  | [] => []
  | x :: xs => none :: (diffVals x xs).map some

/-- `CU = C_total - BUF` with `BUF = C_total * rules["BUF"]` when
`rules["apply_buf"]` and `BUF = 0.0` otherwise (model.py lines 193-198). -/
def cuOfCtotal (rules : CURule) (c : ℚ) : ℚ :=
  c - (if rules.apply_buf then c * rules.BUF else 0)

/-- Per-protocol body of `compute_carbon_units` up to the `C_total` column
(model.py lines 161-191): scale `C_Score` by 3.667 and the rule coefficient,
sort by year, evaluate the spline on the integer grid from min to max year,
take first differences of the project and the all-zero baseline series, and
subtract. Rows are (year, `C_total`) with `none` for NaN. -/
def protocolCtotals (spline : List (ℤ × ℚ) → ℤ → ℚ)
    (df_carbon : List (ℤ × ℚ)) (rules : CURule) : List (ℤ × Option ℚ) :=
  let base := df_carbon.map (fun r => (r.1, r.2 * (3667/1000) * rules.coeff))
  let sorted := sortByKey (fun r => r.1) base
  let grid := intRange (minYear base) (maxYear base)
  let project := grid.map (fun yy => spline sorted yy)
  let dproj := diffO project
  let dbase := diffO (grid.map (fun _ => (0 : ℚ)))
  let ctot := List.zipWith
    (fun a b => Option.bind a (fun x => Option.map (fun z => x - z) b))
    dproj dbase
  grid.zip ctot

/-- Per-protocol output rows of `compute_carbon_units` (model.py lines
193-207): apply the buffer rule, tag with the protocol, and drop rows whose
`CU` is NaN (`dropna(subset=["CU"])`; the `replace([inf,-inf], nan)` step is
vacuous over exact rationals). -/
def protocolRows (spline : List (ℤ × ℚ) → ℤ → ℚ)
    (df_carbon : List (ℤ × ℚ)) (protocol : String) (rules : CURule) :
    List (ℤ × ℚ × String) :=
  (protocolCtotals spline df_carbon rules).filterMap
    (fun r => r.2.map (fun c => (r.1, cuOfCtotal rules c, protocol)))

/-- `ruleset.get(protocol, ruleset["ACR/CAR/VERRA"])` (model.py line 158):
the requested protocol's rule, else the ACR/CAR/VERRA entry. When the
default key is itself absent Python raises `KeyError`; that case is modelled
by a junk rule and excluded by hypothesis in every theorem that uses it. -/
def lookupRule (ruleset : List (String × CURule)) (protocol : String) : CURule :=
  match ruleset.find? (fun e => e.1 == protocol) with
  | some e => e.2
  | none =>
      (((ruleset.find? (fun e => e.1 == "ACR/CAR/VERRA")).map Prod.snd)).getD
        ⟨0, 0, false⟩

/-- Embedding of `compute_carbon_units` (model.py lines 144-209).
`pd.concat` of an empty list raises `ValueError: No objects to concatenate`,
modelled as `Except.error`; otherwise the per-protocol frames are
concatenated in order. -/
def compute_carbon_units (spline : List (ℤ × ℚ) → ℤ → ℚ)
    (df_carbon : List (ℤ × ℚ)) (protocols : List String)
    (ruleset : List (String × CURule)) :
    Except String (List (ℤ × ℚ × String)) :=
  let dfs := protocols.map
    (fun protocol => protocolRows spline df_carbon protocol (lookupRule ruleset protocol))
  if dfs.isEmpty then Except.error "No objects to concatenate"
  else Except.ok dfs.flatten

/-- The fixed default rule table (`conf/base/protocol_rules.json`, mirrored
by the hard-coded branch of `plant_design.carbon_units`). -/
def defaultRules : List (String × CURule) :=
  [("ACR/CAR/VERRA", ⟨1, 1/5, true⟩),
   ("GS", ⟨1, 0, false⟩),
   ("ISO", ⟨1, 1/4, true⟩)]

/-! ## Dashboard-page converter (utils/functions/plant_design.py, carbon_units) -/

/-- The hard-coded protocol branch of `plant_design.carbon_units` (lines
237-251). The `GS` branch leaves `BUF` unset in Python (it is never read
because `apply_buf` is false); it is modelled as 0. Unrecognized protocols
take the ACR/CAR/VERRA values. -/
def pdRule (protocol : String) : CURule :=
  if protocol == "ACR/CAR/VERRA" then ⟨1, 1/5, true⟩
  else if protocol == "GS" then ⟨1, 0, false⟩
  else if protocol == "ISO" then ⟨1, 1/4, true⟩
  else ⟨1, 1/5, true⟩

/-- One row of the page converter's `merged_df` after rounding; `none` is
NaN. -/
structure PDRow where
  Year : ℤ
  delta_C_project : Option ℚ
  delta_C_baseline : Option ℚ
  C_total : Option ℚ
  BUF : Option ℚ
  CU : Option ℚ
deriving DecidableEq, Repr

/-- Column arithmetic of `plant_design.carbon_units` for one year (lines
287-300): `C_total = delta_C_project - delta_C_baseline`; with the buffer,
`BUF = C_total * buffer` and `CU = C_total - BUF`; without it, `BUF` is the
scalar 0.0 and `CU = C_total`; finally every one of the five columns is
rounded to 2 decimals (`.round(2)`, NaN staying NaN). -/
def pdRowOf (rules : CURule) (y : ℤ) (dp db : Option ℚ) : PDRow :=
  let ct := Option.bind dp (fun x => Option.map (fun z => x - z) db)
  let bufv := if rules.apply_buf then ct.map (fun c => c * rules.BUF) else some 0
  let cu := if rules.apply_buf
    then Option.bind ct (fun c => Option.map (fun b => c - b) bufv)
    else ct
  ⟨y, dp.map round2, db.map round2, ct.map round2, bufv.map round2, cu.map round2⟩

/-- Per-protocol body of `plant_design.carbon_units` (lines 233-303): like
the service converter but with the hard-coded rule branch, rounding of all
derived columns to 2 decimals, and no NaN-dropping. Input rows are
(Year, ABLD_C). -/
def carbon_units_page (spline : List (ℤ × ℚ) → ℤ → ℚ)
    (df : List (ℤ × ℚ)) (protocol : String) : List PDRow :=
  let rules := pdRule protocol
  let base := df.map (fun r => (r.1, r.2 * (3667/1000) * rules.coeff))
  let sorted := sortByKey (fun r => r.1) base
  let grid := intRange (minYear base) (maxYear base)
  let project := grid.map (fun yy => spline sorted yy)
  let dproj := diffO project
  let dbase := diffO (grid.map (fun _ => (0 : ℚ)))
  (grid.zip (dproj.zip dbase)).map
    (fun r => pdRowOf rules r.1 r.2.1 r.2.2)

/-! ## Proforma Engine (model_service/model.py, compute_proforma and
compute_summaries)

The engine is embedded per protocol: `compute_proforma` groups its input by
protocol and runs the identical block on each group, so one group with the
default positional index 0..n-1 is modelled. The input is the per-acre CU
series as a list of (Year, CU_ac) rows in frame order; row `i` of the
proforma frame is addressed by position. -/

/-- The financial parameter record `p` of `compute_proforma` /
`compute_summaries`. -/
structure ProformaParams where
  net_acres : ℚ
  year_start : ℤ
  price_per_ert_initial : ℚ
  credit_price_increase : ℚ
  validation_cost : ℚ
  verification_cost : ℚ
  num_plots : ℚ
  cost_per_cfi_plot : ℚ
  anticipated_inflation : ℚ
  registry_fees : ℚ
  issuance_fee_per_ert : ℚ
  planting_cost : ℚ
  seedling_cost : ℚ
  discount_rate : ℚ
deriving DecidableEq, Repr

/-- Year of row `i` of the group's frame (0 past the end; only positions
inside the frame are ever used by the theorems). -/
def rowYear (df : List (ℤ × ℚ)) (i : ℕ) : ℤ := ((df.getD i (0, 0))).1

/-- `CU = CU_ac * net_acres` of row `i` (model.py line 14): project-level
units available. -/
def cuTotal (df : List (ℤ × ℚ)) (p : ProformaParams) (i : ℕ) : ℚ :=
  ((df.getD i (0, 0))).2 * p.net_acres

/-- The sale-year test of model.py lines 19-22: the start year, or any later
year a multiple of 5 after it. Lean's `%` on `ℤ` agrees with Python's `%`
for the positive modulus 5. -/
def saleYear (p : ProformaParams) (y : ℤ) : Prop :=
  y = p.year_start ∨ ((y - p.year_start) % 5 = 0 ∧ y > p.year_start)

instance (p : ProformaParams) (y : ℤ) : Decidable (saleYear p y) := by
  unfold saleYear; infer_instance

/-- `CUs_Sold` of row `i` (model.py lines 17-23): on a sale year the sum of
`CU` over labels `max(0, i-4) .. i` (truncated ℕ subtraction embeds the
clip at the series start of the positional index), else 0. -/
def cusSold (df : List (ℤ × ℚ)) (p : ProformaParams) (i : ℕ) : ℚ :=
  if saleYear p (rowYear df i)
  then ∑ j ∈ Finset.Icc (i - 4) i, cuTotal df p j
  else 0

/-- `CU_Credit_Price` (model.py lines 26-29): initial price escalated by the
growth rate over the years since start. -/
def creditPrice (p : ProformaParams) (y : ℤ) : ℚ :=
  p.price_per_ert_initial * (1 + p.credit_price_increase) ^ (y - p.year_start)

/-- `Validation_and_Verification` (model.py lines 33-39): validation in the
start year, verification on every later 5th year, else 0 (the two
conditions are disjoint). -/
def vvCost (p : ProformaParams) (y : ℤ) : ℚ :=
  if y = p.year_start then p.validation_cost
  else if (y - p.year_start) % 5 = 0 ∧ y > p.year_start then p.verification_cost
  else 0

/-- `Survey_Cost` (model.py lines 41-45). -/
def surveyCost (p : ProformaParams) (y : ℤ) : ℚ :=
  if (y - p.year_start) % 5 = 4
  then p.num_plots * p.cost_per_cfi_plot * (1 + p.anticipated_inflation)
  else 0

/-- `Net_Revenue` of row `i` (model.py lines 30-61): revenue minus the six
cost columns. -/
def netRevenue (df : List (ℤ × ℚ)) (p : ProformaParams) (i : ℕ) : ℚ :=
  cusSold df p i * creditPrice p (rowYear df i)
    - (vvCost p (rowYear df i)
        + surveyCost p (rowYear df i)
        + p.registry_fees
        + cusSold df p i * p.issuance_fee_per_ert
        + p.planting_cost
        + p.seedling_cost)

/-- The (Year, Net_Revenue) column pair of the group's proforma frame, in
frame order. -/
def pfRows (df : List (ℤ × ℚ)) (p : ProformaParams) : List (ℤ × ℚ) :=
  (List.range df.length).map (fun i => (rowYear df i, netRevenue df p i))

/-- `npf.npv(rate, cashflows)`: `Σ cf[t] / (1+rate)^t` with the first
cashflow at period 0, in Horner form. -/
def npv (rate : ℚ) : List ℚ → ℚ
  | [] => 0
  | c :: cs => c + npv rate cs / (1 + rate)

/-- One output row of `compute_summaries`; `npv_per_acre` is `None` when
`net_acres` is (Python-falsy) zero. -/
structure Summary where
  total_net : ℚ
  npv_yr20 : ℚ
  npv_per_acre : Option ℚ
deriving DecidableEq, Repr

/-- The proforma rows sorted by year (`subdf.sort_values("Year")`,
model.py line 84). -/
def summaryRows (df : List (ℤ × ℚ)) (p : ProformaParams) : List (ℤ × ℚ) :=
  sortByKey (fun r => r.1) (pfRows df p)

/-- `total_net = subdf["Net_Revenue"].sum()` (model.py line 86). -/
def totalNet (df : List (ℤ × ℚ)) (p : ProformaParams) : ℚ :=
  ((summaryRows df p).map (fun r => r.2)).sum

/-- `npv_yr = npf.npv(discount_rate, cashflows)` over the year-sorted rows
with `Year <= year_start + npv_years` (model.py lines 88-92); the discount
rate is `anticipated_inflation + discount_rate`. -/
def npvYr (df : List (ℤ × ℚ)) (p : ProformaParams) (npv_years : ℤ) : ℚ :=
  npv (p.anticipated_inflation + p.discount_rate)
    (((summaryRows df p).filter (fun r => decide (r.1 ≤ p.year_start + npv_years))).map
      (fun r => r.2))

/-- Embedding of `compute_summaries` (model.py lines 68-102) for one
protocol group: sort the proforma rows by year, total the net revenue,
discount the cashflows of the years up to `year_start + npv_years`
(default 20), and divide by `net_acres` unless it is zero
(`... if net_acres else None`). -/
def compute_summaries (df : List (ℤ × ℚ)) (p : ProformaParams)
    (npv_years : ℤ := 20) : Summary :=
  ⟨totalNet df p, npvYr df p npv_years,
    if p.net_acres = 0 then none else some (npvYr df p npv_years / p.net_acres)⟩

/-! ## Polynomial-model estimator (utils/functions/models.py, predict_metrics) -/

/-- Embedding of `predict_metrics` (models.py lines 35-45): each
per-(year, variable) regressor is an opaque function from the feature vector
to a raw prediction; the emitted value is `max(prediction, 0)`. The final
pandas `pivot` only rearranges the (Year, Variable, Value) rows and is not
modelled. -/
def predict_metrics (models : List ((ℤ × String) × (List ℚ → ℚ)))
    (X_poly : List ℚ) : List (ℤ × String × ℚ) :=
  models.map (fun m => (m.1.1, m.1.2, max (m.2 X_poly) 0))

/-! ## Shared lemmas -/

/-- `round2 x` always has denominator dividing 100. -/
theorem round2_int_div (x : ℚ) : ∃ n : ℤ, round2 x = (n : ℚ) / 100 :=
  ⟨roundHalfEven (x * 100), rfl⟩

/-- Mapping the score projection over the score-loop body evaluates each
year's `C_Score` to the rounded linear combination, independently of the
carried previous score. -/
theorem scoresAux_map_score (tpa_df tpa_rc tpa_wh survival si : ℚ) :
    ∀ (l : List (ℤ × CoeffRow)) (prev : Option ℚ),
      (scoresAux tpa_df tpa_rc tpa_wh survival si prev l).map
          (fun r => (r.Year, r.C_Score))
        = l.map (fun c => (c.1, round4 (scoreAt c.2 tpa_df tpa_rc tpa_wh survival si)))
  | [], _ => rfl
  | (y, c) :: rest, prev => by
      cases prev <;>
        simp [scoresAux, scoresAux_map_score tpa_df tpa_rc tpa_wh survival si rest]

/-- C1. Corrected: `compute_carbon_scores` returns, for each year of the
table in ascending year order, the cumulative score `round(Σ
coefficient[year][feature] × feature + intercept, 4)` — the linear
combination rounded to 4 decimal places, not the raw linear combination —
and on the specification's single-year example table it returns
`C_Score[2025] = 11.0`. -/
theorem carbon_scores_rounded_linear_formula
    (coefficients : List (ℤ × CoeffRow)) (tpa_df tpa_rc tpa_wh survival si : ℚ) :
    (compute_carbon_scores coefficients tpa_df tpa_rc tpa_wh survival si).map
        (fun r => (r.Year, r.C_Score))
      = (sortByKey (fun c => c.1) coefficients).map
          (fun c => (c.1, round4 (scoreAt c.2 tpa_df tpa_rc tpa_wh survival si)))
    ∧ compute_carbon_scores exampleCoeffs 50 20 10 70 120
      = [⟨2025, 11, 11⟩] := by
  refine ⟨scoresAux_map_score tpa_df tpa_rc tpa_wh survival si
    (sortByKey (fun c => c.1) coefficients) none, ?_⟩
  norm_num [compute_carbon_scores, scoresAux, sortByKey, insertByKey, exampleCoeffs,
    scoreAt, round4, roundHalfEven]

/-- C1. Counterexample to the claim as stated: on a single-year table whose
intercept is 1/100000 (and all other coefficients 0) with all inputs 0, the
returned `C_Score` is 0, while the claimed linear combination evaluates to
1/100000: rounding to 4 decimals separates them. -/
theorem carbon_scores_not_raw_linear :
    compute_carbon_scores tinyInterceptCoeffs 0 0 0 0 0 = [⟨2025, 0, 0⟩]
    ∧ scoreAt ⟨0, 0, 0, 0, 0, 0, 1/100000⟩ 0 0 0 0 0 = 1/100000
    ∧ (0 : ℚ) ≠ 1/100000 := by
  refine ⟨?_, by norm_num [scoreAt], by norm_num⟩
  norm_num [compute_carbon_scores, scoresAux, sortByKey, insertByKey,
    tinyInterceptCoeffs, scoreAt, round4, roundHalfEven]

/-- C5. The service converter called with an empty protocol list reaches
`pd.concat([], ignore_index=True)`, which raises
`ValueError: No objects to concatenate` — it does not return an empty
result. -/
theorem carbon_units_empty_protocols_error
    (spline : List (ℤ × ℚ) → ℤ → ℚ) (df_carbon : List (ℤ × ℚ))
    (ruleset : List (String × CURule)) :
    compute_carbon_units spline df_carbon [] ruleset
      = Except.error "No objects to concatenate" := rfl

/-- C9. Every (year, variable, value) row emitted by `predict_metrics`
carries a value `max(prediction, 0) ≥ 0`: the clip to a floor of 0 makes a
negative sequestration signal impossible. -/
theorem predict_metrics_nonneg (models : List ((ℤ × String) × (List ℚ → ℚ)))
    (X_poly : List ℚ) (r : ℤ × String × ℚ)
    (hr : r ∈ predict_metrics models X_poly) : 0 ≤ r.2.2 := by
  rcases List.mem_map.mp hr with ⟨m, _, rfl⟩
  exact le_max_right _ _

/-- A single constant regressor predicting −5, for instantiating the clip
theorem. -/
def constNegModel : List ((ℤ × String) × (List ℚ → ℚ)) :=
  [((2025, "ABLD_C"), fun _ => -5)]

/-- Witness for the clip theorem: the −5 prediction is floored to 0, which
is nonnegative. -/
theorem predict_metrics_nonneg_witness :
    (2025, "ABLD_C", (0 : ℚ)) ∈ predict_metrics constNegModel []
    ∧ 0 ≤ (0 : ℚ) := by
  have hmem : (2025, "ABLD_C", (0 : ℚ)) ∈ predict_metrics constNegModel [] := by
    simp [predict_metrics, constNegModel]
  exact ⟨hmem, predict_metrics_nonneg constNegModel [] _ hmem⟩

/-- Every output row of the per-protocol converter body carries the
requested protocol tag. -/
theorem protocolRows_protocol (spline : List (ℤ × ℚ) → ℤ → ℚ)
    (df_carbon : List (ℤ × ℚ)) (protocol : String) (rules : CURule)
    (r : ℤ × ℚ × String) (hr : r ∈ protocolRows spline df_carbon protocol rules) :
    r.2.2 = protocol := by
  rcases List.mem_filterMap.mp hr with ⟨⟨y', oc⟩, -, ha⟩
  rcases oc with _ | c
  · exact absurd ha (by simp)
  · simp only [Option.map_some', Option.some.injEq] at ha
    rw [← ha]

/-- C4. Amended: every row of the converter output arises from some
`C_total` value `c` of the same year as `CU = cuOfCtotal rules c`; when the
buffer applies with `0 ≤ BUF < 1`, the bound `0 ≤ CU ≤ C_total` holds
exactly on the rows whose `C_total` is nonnegative, while rows with
negative `C_total` (a decreasing interpolated series) have `CU < 0`. -/
theorem carbon_units_buffer_bound (spline : List (ℤ × ℚ) → ℤ → ℚ)
    (df_carbon : List (ℤ × ℚ)) (protocol : String) (rules : CURule)
    (happ : rules.apply_buf = true) (h0 : 0 ≤ rules.BUF) (h1 : rules.BUF < 1)
    (y : ℤ) (v : ℚ)
    (hmem : (y, v, protocol) ∈ protocolRows spline df_carbon protocol rules) :
    ∃ c, (y, some c) ∈ protocolCtotals spline df_carbon rules
      ∧ v = cuOfCtotal rules c
      ∧ (0 ≤ c → 0 ≤ v ∧ v ≤ c)
      ∧ (c < 0 → v < 0) := by
  rcases List.mem_filterMap.mp hmem with ⟨a, hamem, ha⟩
  rcases a with ⟨y', oc⟩
  rcases oc with _ | c
  · exact absurd ha (by simp)
  · simp only [Option.map_some', Option.some.injEq, Prod.mk.injEq] at ha
    obtain ⟨hy, hv, -⟩ := ha
    subst hy
    refine ⟨c, hamem, hv.symm, ?_, ?_⟩
    · intro hc
      constructor
      · rw [← hv]
        simp only [cuOfCtotal, happ, if_true]
        nlinarith
      · rw [← hv]
        simp only [cuOfCtotal, happ, if_true]
        nlinarith
    · intro hc
      rw [← hv]
      simp only [cuOfCtotal, happ, if_true]
      nlinarith

/-- Witness input for the converter claims: four consecutive years of
slowly increasing carbon scores (every grid year is a spline node). -/
def dfIncreasing : List (ℤ × ℚ) :=
  [(2024, 0), (2025, 1/1000), (2026, 2/1000), (2027, 3/1000)]

/-- Witness for the buffer-bound theorem at a concrete increasing input:
the 2025 row of the ACR/CAR/VERRA output satisfies the amended bound. -/
theorem carbon_units_buffer_bound_witness :
    ((⟨1, 1/5, true⟩ : CURule).apply_buf = true
      ∧ 0 ≤ (⟨1, 1/5, true⟩ : CURule).BUF ∧ (⟨1, 1/5, true⟩ : CURule).BUF < 1
      ∧ (2025, 3667/1250000, "ACR/CAR/VERRA") ∈ protocolRows nodeInterp
          dfIncreasing "ACR/CAR/VERRA" ⟨1, 1/5, true⟩)
    ∧ ∃ c, (2025, some c) ∈ protocolCtotals nodeInterp dfIncreasing ⟨1, 1/5, true⟩
        ∧ (3667/1250000 : ℚ) = cuOfCtotal ⟨1, 1/5, true⟩ c
        ∧ (0 ≤ c → 0 ≤ (3667/1250000 : ℚ) ∧ (3667/1250000 : ℚ) ≤ c)
        ∧ (c < 0 → (3667/1250000 : ℚ) < 0) := by
  have hgrid : intRange 2024 2027 = [2024, 2025, 2026, 2027] := by decide
  have hmem : (2025, 3667/1250000, "ACR/CAR/VERRA") ∈ protocolRows nodeInterp
      dfIncreasing "ACR/CAR/VERRA" ⟨1, 1/5, true⟩ := by
    norm_num [protocolRows, protocolCtotals, nodeInterp, sortByKey, insertByKey,
      minYear, maxYear, hgrid, diffO, diffVals, min_def, max_def, cuOfCtotal,
      List.filterMap_cons, dfIncreasing]
  exact ⟨⟨rfl, by norm_num, by norm_num, hmem⟩,
    carbon_units_buffer_bound nodeInterp dfIncreasing "ACR/CAR/VERRA" ⟨1, 1/5, true⟩
      rfl (by norm_num) (by norm_num) 2025 (3667/1250000) hmem⟩

/-- C4. Counterexample to the claim as stated: on a carbon input whose
scores decrease (years 2024-2027, every grid year a spline node), the
ACR/CAR/VERRA output of `compute_carbon_units` — a rule with
`apply_buf = true` and `BUF = 0.2 ∈ [0,1)` — contains the 2026 row with
`CU = -2.9336 < 0`, violating `0 ≤ CU`. -/
theorem carbon_units_cu_can_be_negative :
    compute_carbon_units nodeInterp [(2024, 1), (2025, 1), (2026, 0), (2027, 0)]
        ["ACR/CAR/VERRA"] defaultRules
      = Except.ok [(2025, 0, "ACR/CAR/VERRA"), (2026, -3667/1250, "ACR/CAR/VERRA"),
          (2027, 0, "ACR/CAR/VERRA")]
    ∧ lookupRule defaultRules "ACR/CAR/VERRA" = ⟨1, 1/5, true⟩
    ∧ ¬ (0 ≤ (-3667/1250 : ℚ)) := by
  have hgrid : intRange 2024 2027 = [2024, 2025, 2026, 2027] := by decide
  have hrule : lookupRule defaultRules "ACR/CAR/VERRA" = ⟨1, 1/5, true⟩ := rfl
  refine ⟨?_, hrule, by norm_num⟩
  norm_num [compute_carbon_units, hrule, protocolRows, protocolCtotals, nodeInterp,
    sortByKey, insertByKey, minYear, maxYear, hgrid, diffO, diffVals, min_def,
    max_def, cuOfCtotal, List.filterMap_cons]

/-- C7. Counterexample to the claim as stated: the service converter
(`model_service.model.compute_carbon_units`) applies no rounding at all —
on a small increasing input its returned `CU` value 0.0029336 is not a
2-decimal quantity. -/
theorem carbon_units_service_not_rounded :
    compute_carbon_units nodeInterp dfIncreasing ["ACR/CAR/VERRA"] defaultRules
      = Except.ok [(2025, 3667/1250000, "ACR/CAR/VERRA"),
          (2026, 3667/1250000, "ACR/CAR/VERRA"),
          (2027, 3667/1250000, "ACR/CAR/VERRA")]
    ∧ round2 (3667/1250000) ≠ (3667/1250000 : ℚ) := by
  have hgrid : intRange 2024 2027 = [2024, 2025, 2026, 2027] := by decide
  have hrule : lookupRule defaultRules "ACR/CAR/VERRA" = ⟨1, 1/5, true⟩ := rfl
  constructor
  · norm_num [compute_carbon_units, hrule, protocolRows, protocolCtotals, nodeInterp,
      sortByKey, insertByKey, minYear, maxYear, hgrid, diffO, diffVals, min_def,
      max_def, cuOfCtotal, List.filterMap_cons, dfIncreasing]
  · norm_num [round2, roundHalfEven]

/-- C7. Amended: 2-decimal rounding is performed by the dashboard-page
converter `plant_design.carbon_units`, not by the service converter — every
non-NaN value in the five derived columns (`delta_C_project`,
`delta_C_baseline`, `C_total`, `BUF`, `CU`) of every page-converter row is
an integer multiple of 1/100. -/
theorem page_converter_rounds_two_dp (spline : List (ℤ × ℚ) → ℤ → ℚ)
    (df : List (ℤ × ℚ)) (protocol : String)
    (row : PDRow) (hrow : row ∈ carbon_units_page spline df protocol)
    (o : Option ℚ)
    (ho : o ∈ [row.delta_C_project, row.delta_C_baseline, row.C_total, row.BUF, row.CU])
    (v : ℚ) (hv : o = some v) :
    ∃ n : ℤ, v = (n : ℚ) / 100 := by
  rcases List.mem_map.mp hrow with ⟨a, -, ha⟩
  have hfields : ∃ w : Option ℚ, o = w.map round2 := by
    simp only [List.mem_cons, List.not_mem_nil, or_false] at ho
    rcases ho with h | h | h | h | h <;>
      · subst h
        rw [← ha]
        simp only [pdRowOf]
        exact ⟨_, rfl⟩
  rcases hfields with ⟨w, hw⟩
  rw [hw] at hv
  rcases w with _ | raw
  · exact absurd hv (by simp)
  · simp only [Option.map_some', Option.some.injEq] at hv
    rw [← hv]
    exact round2_int_div raw

/-- Witness for the page-converter rounding theorem: in the 2025 row of the
concrete run all five derived columns hold `some 0`, a multiple of 1/100. -/
theorem page_converter_rounds_two_dp_witness :
    (⟨2025, some 0, some 0, some 0, some 0, some 0⟩ : PDRow)
        ∈ carbon_units_page nodeInterp dfIncreasing "ACR/CAR/VERRA"
    ∧ some (0 : ℚ) = some (0 : ℚ)
    ∧ ∃ n : ℤ, (0 : ℚ) = (n : ℚ) / 100 := by
  have hgrid : intRange 2024 2027 = [2024, 2025, 2026, 2027] := by decide
  have hr0 : round2 (0 : ℚ) = 0 := by norm_num [round2, roundHalfEven]
  have hr1 : round2 (3667/1000000 : ℚ) = 0 := by norm_num [round2, roundHalfEven]
  have hr2 : round2 (3667/5000000 : ℚ) = 0 := by norm_num [round2, roundHalfEven]
  have hr3 : round2 (3667/1250000 : ℚ) = 0 := by norm_num [round2, roundHalfEven]
  have hmem : (⟨2025, some 0, some 0, some 0, some 0, some 0⟩ : PDRow)
      ∈ carbon_units_page nodeInterp dfIncreasing "ACR/CAR/VERRA" := by
    norm_num [carbon_units_page, pdRule, pdRowOf, nodeInterp, sortByKey, insertByKey,
      minYear, maxYear, hgrid, diffO, diffVals, min_def, max_def, hr0, hr1, hr2, hr3,
      dfIncreasing]
  exact ⟨hmem, rfl,
    page_converter_rounds_two_dp nodeInterp dfIncreasing "ACR/CAR/VERRA" _ hmem
      (some 0) (by simp) 0 rfl⟩

/-- C6. For a protocol id absent from the rule table (which contains the
"ACR/CAR/VERRA" key), `compute_carbon_units` silently computes the rows
with the ACR/CAR/VERRA rule — no error — and every output row still
carries the requested protocol id. -/
theorem carbon_units_unknown_protocol_fallback
    (spline : List (ℤ × ℚ) → ℤ → ℚ) (df_carbon : List (ℤ × ℚ))
    (ruleset : List (String × CURule)) (protocol : String) (rule : CURule)
    (hmiss : ruleset.find? (fun e => e.1 == protocol) = none)
    (hdef : ruleset.find? (fun e => e.1 == "ACR/CAR/VERRA")
      = some ("ACR/CAR/VERRA", rule)) :
    compute_carbon_units spline df_carbon [protocol] ruleset
      = Except.ok (protocolRows spline df_carbon protocol rule)
    ∧ ∀ r ∈ protocolRows spline df_carbon protocol rule, r.2.2 = protocol := by
  have hlook : lookupRule ruleset protocol = rule := by
    unfold lookupRule
    rw [hmiss, hdef]
    rfl
  refine ⟨?_, fun r hr => protocolRows_protocol spline df_carbon protocol rule r hr⟩
  simp [compute_carbon_units, hlook]

/-- Witness for the unknown-protocol fallback: "CDM" is not a key of the
default rule table, so its rows are computed with the ACR/CAR/VERRA rule
and tagged "CDM". -/
theorem carbon_units_unknown_protocol_fallback_witness :
    (defaultRules.find? (fun e => e.1 == "CDM") = none
      ∧ defaultRules.find? (fun e => e.1 == "ACR/CAR/VERRA")
          = some ("ACR/CAR/VERRA", ⟨1, 1/5, true⟩))
    ∧ compute_carbon_units nodeInterp dfIncreasing ["CDM"] defaultRules
        = Except.ok (protocolRows nodeInterp dfIncreasing "CDM" ⟨1, 1/5, true⟩)
    ∧ ∀ r ∈ protocolRows nodeInterp dfIncreasing "CDM" ⟨1, 1/5, true⟩,
        r.2.2 = "CDM" := by
  have h := carbon_units_unknown_protocol_fallback nodeInterp dfIncreasing
    defaultRules "CDM" ⟨1, 1/5, true⟩ rfl rfl
  exact ⟨⟨rfl, rfl⟩, h.1, h.2⟩

/-- Parameters with `net_acres = 0`, a registry fee of 1, and every other
financial input 0. -/
def paramsZeroAcres : ProformaParams := ⟨0, 2025, 0, 0, 0, 0, 0, 0, 0, 1, 0, 0, 0, 0⟩

/-- `paramsZeroAcres` with one net acre. -/
def paramsOneAcre : ProformaParams := ⟨1, 2025, 0, 0, 0, 0, 0, 0, 0, 1, 0, 0, 0, 0⟩

/-- C8. Counterexample to the claim as stated: with `net_acres = 0` the
summary computation completes and returns `npv_per_acre = None` — the
division is guarded by the Python truthiness test
`npv_yr / net_acres if net_acres else None` (model.py line 93), so no
division-by-zero occurs. -/
theorem summaries_zero_acres_returns_none :
    compute_summaries [(2025, 5)] paramsZeroAcres = ⟨-1, -1, none⟩ := by
  norm_num [compute_summaries, totalNet, npvYr, summaryRows, pfRows, rowYear, cuTotal,
    netRevenue, cusSold, saleYear, creditPrice, vvCost, surveyCost, npv, sortByKey,
    insertByKey, List.range_succ, List.filter_cons, Finset.Icc_self, paramsZeroAcres]

/-- C8. Amended: `npv_per_acre` is guarded against `net_acres = 0` by a
truthiness check and yields `None` there; for any nonzero `net_acres`
(including negative values, which remain unvalidated) the division
`npv_yr / net_acres` is performed. -/
theorem npv_per_acre_guard (df : List (ℤ × ℚ)) (p : ProformaParams) :
    (p.net_acres = 0 → (compute_summaries df p).npv_per_acre = none)
    ∧ (p.net_acres ≠ 0 → (compute_summaries df p).npv_per_acre
        = some ((compute_summaries df p).npv_yr20 / p.net_acres)) := by
  constructor <;> intro h <;> simp [compute_summaries, h]

/-- Witness for the per-acre guard: at `net_acres = 0` the summary holds
`None`; at `net_acres = 1` it holds the quotient. -/
theorem npv_per_acre_guard_witness :
    (paramsZeroAcres.net_acres = 0
      ∧ (compute_summaries [(2025, 5)] paramsZeroAcres).npv_per_acre = none)
    ∧ (paramsOneAcre.net_acres ≠ 0
      ∧ (compute_summaries [(2025, 5)] paramsOneAcre).npv_per_acre
          = some ((compute_summaries [(2025, 5)] paramsOneAcre).npv_yr20
              / paramsOneAcre.net_acres)) := by
  refine ⟨⟨rfl, (npv_per_acre_guard [(2025, 5)] paramsZeroAcres).1 rfl⟩,
    ⟨?_, (npv_per_acre_guard [(2025, 5)] paramsOneAcre).2 ?_⟩⟩ <;>
    norm_num [paramsOneAcre]

/-- Partitioning: summing trailing 5-wide windows at every 5th position
(clipped at 0) over a range of length `5k+1` recovers the whole sum. -/
theorem sale_window_sum (f : ℕ → ℚ) :
    ∀ k : ℕ,
      (∑ i ∈ Finset.range (5*k+1),
        (if i % 5 = 0 then ∑ j ∈ Finset.Icc (i - 4) i, f j else 0))
      = ∑ i ∈ Finset.range (5*k+1), f i
  | 0 => by
      simp [Finset.sum_range_one, Finset.Icc_self]
  | k+1 => by
      have IH := sale_window_sum f k
      have g0 : (5*k) % 5 = 0 := by omega
      rw [Finset.sum_range_succ, Finset.sum_range_succ, if_pos g0] at IH
      have hsplit : 5*(k+1)+1 = (5*k+1)+1+1+1+1+1 := by ring
      rw [hsplit]
      simp only [Finset.sum_range_succ]
      have g1 : ¬ (5*k+1) % 5 = 0 := by omega
      have g2 : ¬ (5*k+2) % 5 = 0 := by omega
      have g3 : ¬ (5*k+3) % 5 = 0 := by omega
      have g4 : ¬ (5*k+4) % 5 = 0 := by omega
      have g5 : (5*k+5) % 5 = 0 := by omega
      rw [if_pos g0, if_neg g1, if_neg g2, if_neg g3, if_neg g4, if_pos g5]
      have hIcc : ∑ j ∈ Finset.Icc (5*k+5 - 4) (5*k+5), f j
          = f (5*k+1) + f (5*k+2) + f (5*k+3) + f (5*k+4) + f (5*k+5) := by
        have h0 : 5*k+5 - 4 = 5*k+1 := by omega
        have e4 : 5*k+5 = (5*k+4)+1 := by omega
        have e3 : 5*k+4 = (5*k+3)+1 := by omega
        have e2 : 5*k+3 = (5*k+2)+1 := by omega
        have e1 : 5*k+2 = (5*k+1)+1 := by omega
        rw [h0, e4, Finset.sum_Icc_succ_top (by omega)]
        rw [e3, Finset.sum_Icc_succ_top (by omega)]
        rw [e2, Finset.sum_Icc_succ_top (by omega)]
        rw [e1, Finset.sum_Icc_succ_top (by omega)]
        rw [Finset.Icc_self, Finset.sum_singleton]
      rw [hIcc]
      linarith [IH]

/-- C2. For a per-acre CU series whose years are contiguous from the
proforma start year and span the start year plus a whole number of 5-year
sale windows (`length % 5 = 1`), the lump-sum sale rule conserves units:
total `CUs_Sold` equals total `CU` (exactly, over ℚ); and row `i` sells the
trailing-5-window sum (clipped at the series start) on sale years and 0
otherwise. -/
theorem proforma_sale_conservation (df : List (ℤ × ℚ)) (p : ProformaParams)
    (hcontig : ∀ i : ℕ, i < df.length → rowYear df i = p.year_start + i)
    (hlen : df.length % 5 = 1) :
    (∑ i ∈ Finset.range df.length, cusSold df p i)
      = ∑ i ∈ Finset.range df.length, cuTotal df p i
    ∧ ∀ i : ℕ, i < df.length →
        cusSold df p i
          = if i % 5 = 0 then ∑ j ∈ Finset.Icc (i - 4) i, cuTotal df p j else 0 := by
  have hrule : ∀ i : ℕ, i < df.length →
      cusSold df p i
        = if i % 5 = 0 then ∑ j ∈ Finset.Icc (i - 4) i, cuTotal df p j else 0 := by
    intro i hi
    unfold cusSold
    rw [hcontig i hi]
    have hcond : saleYear p (p.year_start + i) ↔ i % 5 = 0 := by
      unfold saleYear
      omega
    rw [if_congr hcond rfl rfl]
  refine ⟨?_, hrule⟩
  have hsum : (∑ i ∈ Finset.range df.length, cusSold df p i)
      = ∑ i ∈ Finset.range df.length,
          (if i % 5 = 0 then ∑ j ∈ Finset.Icc (i - 4) i, cuTotal df p j else 0) :=
    Finset.sum_congr rfl (fun i hi => hrule i (Finset.mem_range.mp hi))
  obtain ⟨k, hk⟩ : ∃ k, df.length = 5*k+1 := ⟨df.length / 5, by omega⟩
  rw [hsum, hk]
  exact sale_window_sum (cuTotal df p) k

/-- A six-year contiguous per-acre CU series starting at the 2025 start
year: one initial sale year plus one full 5-year window. -/
def dfSix : List (ℤ × ℚ) :=
  [(2025, 1), (2026, 2), (2027, 3), (2028, 4), (2029, 5), (2030, 6)]

/-- Witness for the sale-conservation theorem on the six-year series with
one-acre parameters. -/
theorem proforma_sale_conservation_witness :
    ((∀ i : ℕ, i < dfSix.length → rowYear dfSix i = paramsOneAcre.year_start + i)
      ∧ dfSix.length % 5 = 1)
    ∧ (∑ i ∈ Finset.range dfSix.length, cusSold dfSix paramsOneAcre i)
        = ∑ i ∈ Finset.range dfSix.length, cuTotal dfSix paramsOneAcre i
    ∧ ∀ i : ℕ, i < dfSix.length →
        cusSold dfSix paramsOneAcre i
          = if i % 5 = 0 then ∑ j ∈ Finset.Icc (i - 4) i, cuTotal dfSix paramsOneAcre j
            else 0 := by
  have h := proforma_sale_conservation dfSix paramsOneAcre (by decide) (by decide)
  exact ⟨⟨by decide, by decide⟩, h.1, h.2⟩

/-- `p` with doubled `net_acres`, all other parameters unchanged. -/
def doubleAcres (p : ProformaParams) : ProformaParams :=
  { p with net_acres := 2 * p.net_acres }

/-- Project-level units available scale linearly with `net_acres`. -/
theorem cuTotal_doubleAcres (df : List (ℤ × ℚ)) (p : ProformaParams) (i : ℕ) :
    cuTotal df (doubleAcres p) i = 2 * cuTotal df p i := by
  unfold cuTotal doubleAcres
  ring

/-- Units sold scale linearly with `net_acres` (sale years are unaffected). -/
theorem cusSold_doubleAcres (df : List (ℤ × ℚ)) (p : ProformaParams) (i : ℕ) :
    cusSold df (doubleAcres p) i = 2 * cusSold df p i := by
  unfold cusSold
  have hsame : saleYear (doubleAcres p) (rowYear df i) ↔ saleYear p (rowYear df i) :=
    Iff.rfl
  rw [if_congr hsame rfl rfl]
  by_cases h : saleYear p (rowYear df i)
  · rw [if_pos h, if_pos h, Finset.mul_sum]
    exact Finset.sum_congr rfl (fun j _ => cuTotal_doubleAcres df p j)
  · rw [if_neg h, if_neg h, mul_zero]

/-- With all flat (area-independent) costs zero, net revenue scales
linearly with `net_acres`: revenue and issuance fees are proportional to
units sold, and nothing else remains. -/
theorem netRevenue_doubleAcres (df : List (ℤ × ℚ)) (p : ProformaParams) (i : ℕ)
    (hval : p.validation_cost = 0) (hver : p.verification_cost = 0)
    (hplots : p.num_plots = 0) (hreg : p.registry_fees = 0)
    (hplant : p.planting_cost = 0) (hseed : p.seedling_cost = 0) :
    netRevenue df (doubleAcres p) i = 2 * netRevenue df p i := by
  have hvv : ∀ y : ℤ, vvCost p y = 0 := by
    intro y
    unfold vvCost
    rw [hval, hver]
    simp
  have hsc : ∀ y : ℤ, surveyCost p y = 0 := by
    intro y
    unfold surveyCost
    rw [hplots]
    simp
  unfold netRevenue
  rw [show vvCost (doubleAcres p) = vvCost p from rfl,
    show surveyCost (doubleAcres p) = surveyCost p from rfl,
    show creditPrice (doubleAcres p) = creditPrice p from rfl,
    show (doubleAcres p).registry_fees = p.registry_fees from rfl,
    show (doubleAcres p).planting_cost = p.planting_cost from rfl,
    show (doubleAcres p).seedling_cost = p.seedling_cost from rfl,
    show (doubleAcres p).issuance_fee_per_ert = p.issuance_fee_per_ert from rfl]
  rw [cusSold_doubleAcres, hvv, hsc, hreg, hplant, hseed]
  ring

/-- The (Year, Net_Revenue) rows under doubled acres are the original rows
with doubled revenue, under zero flat costs. -/
theorem pfRows_doubleAcres (df : List (ℤ × ℚ)) (p : ProformaParams)
    (hval : p.validation_cost = 0) (hver : p.verification_cost = 0)
    (hplots : p.num_plots = 0) (hreg : p.registry_fees = 0)
    (hplant : p.planting_cost = 0) (hseed : p.seedling_cost = 0) :
    pfRows df (doubleAcres p) = (pfRows df p).map (fun r => (r.1, 2 * r.2)) := by
  unfold pfRows
  rw [List.map_map]
  exact List.map_congr_left (fun i _ => by
    simp only [Function.comp_apply]
    rw [netRevenue_doubleAcres df p i hval hver hplots hreg hplant hseed])

/-- Insertion by year commutes with a value-only transformation. -/
theorem insertByKey_snd_map (g : ℚ → ℚ) (r : ℤ × ℚ) (l : List (ℤ × ℚ)) :
    insertByKey (fun x => x.1) (r.1, g r.2) (l.map (fun x => (x.1, g x.2)))
      = (insertByKey (fun x => x.1) r l).map (fun x => (x.1, g x.2)) := by
  induction l with
  | nil => rfl
  | cons s rest ih =>
      simp only [List.map_cons, insertByKey]
      by_cases h : r.1 < s.1
      · simp [h]
      · simp [h, ih]

/-- Sorting by year commutes with a value-only transformation. -/
theorem sortByKey_snd_map (g : ℚ → ℚ) (l : List (ℤ × ℚ)) :
    sortByKey (fun x => x.1) (l.map (fun x => (x.1, g x.2)))
      = (sortByKey (fun x => x.1) l).map (fun x => (x.1, g x.2)) := by
  induction l with
  | nil => rfl
  | cons r rest ih =>
      simp only [List.map_cons, sortByKey]
      rw [ih, ← insertByKey_snd_map]

/-- Filtering on the year commutes with a value-only transformation. -/
theorem filter_year_snd_map (g : ℚ → ℚ) (q : ℤ → Bool) (l : List (ℤ × ℚ)) :
    (l.map (fun x => (x.1, g x.2))).filter (fun r => q r.1)
      = (l.filter (fun r => q r.1)).map (fun x => (x.1, g x.2)) := by
  induction l with
  | nil => rfl
  | cons s rest ih =>
      simp only [List.map_cons, List.filter_cons]
      by_cases h : q s.1
      · simp [h, ih]
      · simp [h, ih]

/-- Summing the values of value-doubled rows doubles the sum. -/
theorem sum_snd_map_double (l : List (ℤ × ℚ)) :
    ((l.map (fun x => (x.1, 2 * x.2))).map (fun r => r.2)).sum
      = 2 * (l.map (fun r => r.2)).sum := by
  induction l with
  | nil => simp
  | cons s rest ih =>
      simp only [List.map_cons, List.sum_cons, ih]
      ring

/-- The discounted-cashflow sum is linear: doubling every cashflow doubles
the NPV. -/
theorem npv_double (rate : ℚ) (l : List ℚ) :
    npv rate (l.map (fun c => 2 * c)) = 2 * npv rate l := by
  induction l with
  | nil => simp [npv]
  | cons c rest ih =>
      simp only [List.map_cons, npv, ih]
      ring

/-- The year-sorted summary rows under doubled acres are the original rows
with doubled revenue, under zero flat costs. -/
theorem summaryRows_doubleAcres (df : List (ℤ × ℚ)) (p : ProformaParams)
    (hval : p.validation_cost = 0) (hver : p.verification_cost = 0)
    (hplots : p.num_plots = 0) (hreg : p.registry_fees = 0)
    (hplant : p.planting_cost = 0) (hseed : p.seedling_cost = 0) :
    summaryRows df (doubleAcres p)
      = (summaryRows df p).map (fun r => (r.1, 2 * r.2)) := by
  unfold summaryRows
  rw [pfRows_doubleAcres df p hval hver hplots hreg hplant hseed, sortByKey_snd_map]

/-- C3. Amended: doubling `net_acres` doubles `total_net_revenue` and
`npv_at_year_20` and leaves `npv_per_acre` unchanged exactly when all the
flat, area-independent costs (validation, verification, survey plots,
registry, planting, seedling) are zero — revenue and issuance fees scale
with acres, the flat costs do not. -/
theorem proforma_scale_zero_fixed_costs (df : List (ℤ × ℚ)) (p : ProformaParams)
    (hval : p.validation_cost = 0) (hver : p.verification_cost = 0)
    (hplots : p.num_plots = 0) (hreg : p.registry_fees = 0)
    (hplant : p.planting_cost = 0) (hseed : p.seedling_cost = 0)
    (hacres : p.net_acres ≠ 0) :
    (compute_summaries df (doubleAcres p)).total_net
        = 2 * (compute_summaries df p).total_net
    ∧ (compute_summaries df (doubleAcres p)).npv_yr20
        = 2 * (compute_summaries df p).npv_yr20
    ∧ (compute_summaries df (doubleAcres p)).npv_per_acre
        = (compute_summaries df p).npv_per_acre := by
  have hrows := summaryRows_doubleAcres df p hval hver hplots hreg hplant hseed
  have htot : totalNet df (doubleAcres p) = 2 * totalNet df p := by
    unfold totalNet
    rw [hrows, sum_snd_map_double]
  have hnpv : ∀ ny : ℤ, npvYr df (doubleAcres p) ny = 2 * npvYr df p ny := by
    intro ny
    unfold npvYr
    rw [hrows,
      show (doubleAcres p).year_start = p.year_start from rfl,
      show (doubleAcres p).anticipated_inflation = p.anticipated_inflation from rfl,
      show (doubleAcres p).discount_rate = p.discount_rate from rfl]
    rw [filter_year_snd_map (fun v => 2 * v)
      (fun y => decide (y ≤ p.year_start + ny)) (summaryRows df p)]
    rw [List.map_map]
    rw [show ((fun r : ℤ × ℚ => r.2) ∘ fun x : ℤ × ℚ => (x.1, 2 * x.2))
        = (fun c : ℚ => 2 * c) ∘ (fun r : ℤ × ℚ => r.2) from rfl]
    rw [← List.map_map]
    exact npv_double _ _
  simp only [compute_summaries]
  refine ⟨htot, hnpv 20, ?_⟩
  have h2 : (doubleAcres p).net_acres = 2 * p.net_acres := rfl
  rw [h2, hnpv 20, if_neg (mul_ne_zero two_ne_zero hacres), if_neg hacres,
    mul_div_mul_left _ _ two_ne_zero]

/-- Parameters with one net acre, a credit price of 10, an issuance fee of
1, and zero flat costs, for exercising the scale theorem on a revenue-
bearing case. -/
def paramsScale : ProformaParams := ⟨1, 2025, 10, 0, 0, 0, 0, 0, 0, 0, 1, 0, 0, 0⟩

/-- Witness for the zero-flat-cost scale theorem: with a price of 10, an
issuance fee of 1, and a CU of 3 in the 2025 start year, doubling the acre
count doubles the totals and preserves the per-acre NPV. -/
theorem proforma_scale_zero_fixed_costs_witness :
    (paramsScale.validation_cost = 0 ∧ paramsScale.verification_cost = 0
      ∧ paramsScale.num_plots = 0 ∧ paramsScale.registry_fees = 0
      ∧ paramsScale.planting_cost = 0 ∧ paramsScale.seedling_cost = 0
      ∧ paramsScale.net_acres ≠ 0)
    ∧ (compute_summaries [(2025, 3)] (doubleAcres paramsScale)).total_net
        = 2 * (compute_summaries [(2025, 3)] paramsScale).total_net
    ∧ (compute_summaries [(2025, 3)] (doubleAcres paramsScale)).npv_yr20
        = 2 * (compute_summaries [(2025, 3)] paramsScale).npv_yr20
    ∧ (compute_summaries [(2025, 3)] (doubleAcres paramsScale)).npv_per_acre
        = (compute_summaries [(2025, 3)] paramsScale).npv_per_acre := by
  have h := proforma_scale_zero_fixed_costs [(2025, 3)] paramsScale rfl rfl rfl rfl
    rfl rfl (by norm_num [paramsScale])
  exact ⟨⟨rfl, rfl, rfl, rfl, rfl, rfl, by norm_num [paramsScale]⟩, h.1, h.2.1, h.2.2⟩

/-- C3. Counterexample to the claim as stated: with a flat registry fee of
1 and an all-zero CU series over one year, doubling `net_acres` from 1 to 2
leaves `total_net_revenue` and `npv_at_year_20` at -1 (not -2) and moves
`npv_per_acre` from -1 to -1/2 — none of the three claimed identities
holds. -/
theorem proforma_not_scale_invariant :
    (compute_summaries [(2025, 0)] (doubleAcres paramsOneAcre)).total_net
        ≠ 2 * (compute_summaries [(2025, 0)] paramsOneAcre).total_net
    ∧ (compute_summaries [(2025, 0)] (doubleAcres paramsOneAcre)).npv_yr20
        ≠ 2 * (compute_summaries [(2025, 0)] paramsOneAcre).npv_yr20
    ∧ (compute_summaries [(2025, 0)] (doubleAcres paramsOneAcre)).npv_per_acre
        ≠ (compute_summaries [(2025, 0)] paramsOneAcre).npv_per_acre := by
  have h1 : compute_summaries [(2025, 0)] paramsOneAcre = ⟨-1, -1, some (-1)⟩ := by
    norm_num [compute_summaries, totalNet, npvYr, summaryRows, pfRows, rowYear, cuTotal,
      netRevenue, cusSold, saleYear, creditPrice, vvCost, surveyCost, npv, sortByKey,
      insertByKey, List.range_succ, List.filter_cons, Finset.Icc_self, paramsOneAcre]
  have h2 : compute_summaries [(2025, 0)] (doubleAcres paramsOneAcre)
      = ⟨-1, -1, some (-1/2)⟩ := by
    norm_num [compute_summaries, totalNet, npvYr, summaryRows, pfRows, rowYear, cuTotal,
      netRevenue, cusSold, saleYear, creditPrice, vvCost, surveyCost, npv, sortByKey,
      insertByKey, List.range_succ, List.filter_cons, Finset.Icc_self, paramsOneAcre,
      doubleAcres]
  rw [h1, h2]
  norm_num

/-- A nonempty frame has its minimum year at most its maximum year. -/
theorem minYear_le_maxYear : ∀ l : List (ℤ × ℚ), l ≠ [] → minYear l ≤ maxYear l
  | [], h => absurd rfl h
  | [r], _ => le_refl _
  | r :: s :: rest, _ => by
      have ih := minYear_le_maxYear (s :: rest) (by simp)
      rw [show minYear (r :: s :: rest) = min r.1 (minYear (s :: rest)) from rfl,
        show maxYear (r :: s :: rest) = max r.1 (maxYear (s :: rest)) from rfl]
      exact le_trans (min_le_min (le_refl _) ih) (min_le_max)

/-- A value-only transformation does not change the minimum year. -/
theorem minYear_map (g : ℤ × ℚ → ℚ) :
    ∀ l : List (ℤ × ℚ), minYear (l.map (fun r => (r.1, g r))) = minYear l
  | [] => rfl
  | [r] => rfl
  | r :: s :: rest => by
      have ih := minYear_map g (s :: rest)
      simp only [List.map_cons] at ih ⊢
      rw [show minYear ((r.1, g r) :: (s.1, g s) :: rest.map (fun r => (r.1, g r)))
          = min r.1 (minYear ((s.1, g s) :: rest.map (fun r => (r.1, g r)))) from rfl,
        show minYear (r :: s :: rest) = min r.1 (minYear (s :: rest)) from rfl, ih]

/-- A value-only transformation does not change the maximum year. -/
theorem maxYear_map (g : ℤ × ℚ → ℚ) :
    ∀ l : List (ℤ × ℚ), maxYear (l.map (fun r => (r.1, g r))) = maxYear l
  | [] => rfl
  | [r] => rfl
  | r :: s :: rest => by
      have ih := maxYear_map g (s :: rest)
      simp only [List.map_cons] at ih ⊢
      rw [show maxYear ((r.1, g r) :: (s.1, g s) :: rest.map (fun r => (r.1, g r)))
          = max r.1 (maxYear ((s.1, g s) :: rest.map (fun r => (r.1, g r)))) from rfl,
        show maxYear (r :: s :: rest) = max r.1 (maxYear (s :: rest)) from rfl, ih]

/-- `np.arange` peeling: a nonempty integer range is its left endpoint
followed by the rest. -/
theorem intRange_cons (lo hi : ℤ) (h : lo ≤ hi) :
    intRange lo hi = lo :: intRange (lo + 1) hi := by
  unfold intRange
  have h1 : (hi + 1 - lo).toNat = (hi + 1 - (lo + 1)).toNat + 1 := by omega
  rw [h1, List.range_succ_eq_map]
  simp only [List.map_cons, List.map_map, Nat.cast_zero, add_zero]
  congr 1
  exact List.map_congr_left (fun k _ => by
    simp only [Function.comp_apply]
    push_cast
    ring)

/-- Every member of `intRange lo hi` is at least `lo`. -/
theorem intRange_mem_lower {y lo hi : ℤ} (h : y ∈ intRange lo hi) : lo ≤ y := by
  unfold intRange at h
  rcases List.mem_map.mp h with ⟨k, -, rfl⟩
  omega

/-- The difference tail has the length of its input. -/
theorem diffVals_length (prev : ℚ) : ∀ l : List ℚ, (diffVals prev l).length = l.length
  | [] => rfl
  | x :: xs => by
      rw [show diffVals prev (x :: xs) = (x - prev) :: diffVals x xs from rfl]
      simp [diffVals_length x xs]

/-- Subtracting two all-`some` columns under the NaN-propagating combiner
yields the all-`some` column of differences. -/
theorem zipWith_opt_sub : ∀ a b : List ℚ,
    List.zipWith (fun a b => Option.bind a (fun x => Option.map (fun z => x - z) b))
      (a.map some) (b.map some) = (List.zipWith (fun x z => x - z) a b).map some
  | [], _ => by simp
  | _ :: _, [] => by simp
  | x :: xs, z :: zs => by
      simp only [List.map_cons, List.zipWith_cons_cons]
      rw [zipWith_opt_sub xs zs]
      rfl

/-- Filtering the CU rows built from an all-`some` `C_total` column keeps
every year, in order. -/
theorem filterMap_cu_years (rules : CURule) (protocol : String) :
    ∀ (ys : List ℤ) (ws : List ℚ), ys.length = ws.length →
      (List.filterMap
          (fun r : ℤ × Option ℚ => r.2.map (fun c => (r.1, cuOfCtotal rules c, protocol)))
          (ys.zip (ws.map some))).map (fun r => r.1)
        = ys
  | [], _, _ => by simp
  | y :: ys, [], h => by simp at h
  | y :: ys, w :: ws, h => by
      simp only [List.map_cons, List.zip_cons_cons, List.filterMap_cons,
        Option.map_some', List.map_cons]
      rw [filterMap_cu_years rules protocol ys ws (by simpa using h)]

/-- The years of a per-protocol converter output are exactly the integer
years from one past the minimum input year to the maximum input year: the
first grid row is the NaN first difference and is dropped, every later row
survives. Holds for every interpolation function. -/
theorem protocolRows_years (spline : List (ℤ × ℚ) → ℤ → ℚ) (df : List (ℤ × ℚ))
    (protocol : String) (rules : CURule) (hne : df ≠ []) :
    (protocolRows spline df protocol rules).map (fun r => r.1)
      = intRange (minYear df + 1) (maxYear df) := by
  have hlo : minYear (df.map (fun r => (r.1, r.2 * (3667/1000) * rules.coeff)))
      = minYear df := minYear_map _ df
  have hhi : maxYear (df.map (fun r => (r.1, r.2 * (3667/1000) * rules.coeff)))
      = maxYear df := maxYear_map _ df
  have hle : minYear df ≤ maxYear df := minYear_le_maxYear df hne
  simp only [protocolRows, protocolCtotals, hlo, hhi]
  rw [intRange_cons _ _ hle]
  set sorted := sortByKey (fun r => r.1)
    (List.map (fun r => (r.1, r.2 * (3667/1000) * rules.coeff)) df) with hsorted
  set rest := intRange (minYear df + 1) (maxYear df) with hrest
  simp only [List.map_cons]
  rw [show diffO (spline sorted (minYear df) :: List.map (fun yy => spline sorted yy) rest)
      = none :: (diffVals (spline sorted (minYear df))
          (List.map (fun yy => spline sorted yy) rest)).map some from rfl]
  rw [show diffO ((0:ℚ) :: List.map (fun _ => (0:ℚ)) rest)
      = none :: (diffVals 0 (List.map (fun _ => (0:ℚ)) rest)).map some from rfl]
  rw [List.zipWith_cons_cons, zipWith_opt_sub, List.zip_cons_cons]
  rw [show ((none : Option ℚ).bind fun x => Option.map (fun z => x - z) (none : Option ℚ))
      = (none : Option ℚ) from rfl]
  rw [List.filterMap_cons_none (by rfl)]
  apply filterMap_cu_years
  rw [List.length_zipWith, diffVals_length, diffVals_length, List.length_map,
    List.length_map, min_self]

/-- C10. For a carbon input with at least 4 distinct years and any
requested protocol, the converter output covers exactly the integer years
from (minimum input year + 1) to the maximum input year: the earliest year
is always dropped as the NaN first difference, so a prepended project-start
row never appears in the CU output. -/
theorem carbon_units_year_coverage (spline : List (ℤ × ℚ) → ℤ → ℚ)
    (df : List (ℤ × ℚ)) (ruleset : List (String × CURule)) (protocol : String)
    (h4 : 4 ≤ df.length) (hnd : (df.map (fun r => r.1)).Nodup) :
    compute_carbon_units spline df [protocol] ruleset
      = Except.ok (protocolRows spline df protocol (lookupRule ruleset protocol))
    ∧ (protocolRows spline df protocol (lookupRule ruleset protocol)).map (fun r => r.1)
        = intRange (minYear df + 1) (maxYear df)
    ∧ minYear df ∉ (protocolRows spline df protocol
        (lookupRule ruleset protocol)).map (fun r => r.1) := by
  have hne : df ≠ [] := by
    intro h
    rw [h] at h4
    simp at h4
  have hyears := protocolRows_years spline df protocol (lookupRule ruleset protocol) hne
  refine ⟨by simp [compute_carbon_units], hyears, ?_⟩
  rw [hyears]
  intro hmem
  have := intRange_mem_lower hmem
  omega

/-- Witness for the year-coverage theorem: the four-year increasing input
under the GS rule yields rows for 2025-2027 only, with 2024 absent. -/
theorem carbon_units_year_coverage_witness :
    (4 ≤ dfIncreasing.length ∧ (dfIncreasing.map (fun r => r.1)).Nodup)
    ∧ compute_carbon_units nodeInterp dfIncreasing ["GS"] defaultRules
        = Except.ok (protocolRows nodeInterp dfIncreasing "GS"
            (lookupRule defaultRules "GS"))
    ∧ (protocolRows nodeInterp dfIncreasing "GS"
          (lookupRule defaultRules "GS")).map (fun r => r.1)
        = intRange (minYear dfIncreasing + 1) (maxYear dfIncreasing)
    ∧ minYear dfIncreasing ∉ (protocolRows nodeInterp dfIncreasing "GS"
        (lookupRule defaultRules "GS")).map (fun r => r.1) := by
  have h := carbon_units_year_coverage nodeInterp dfIncreasing defaultRules "GS"
    (by decide) (by decide)
  exact ⟨⟨by decide, by decide⟩, h.1, h.2.1, h.2.2⟩
